import Mathlib

/-!
Shallow embedding of the news API of `src/API/main.py`: the simulated
article store `DB_SIMULADA`, the query endpoint
`listar_noticias_con_filtros` (keyword, source, topic and date-range
filters applied in sequence with Python truthiness on each optional
parameter), and the lookup endpoint `obtener_noticia`.
-/

/-- Character-wise lowercase, as Python `str.lower` acts on the characters
occurring in this repository: ASCII uppercase letters map down by 32, the
accented Spanish uppercase letters map to their accented lowercase forms,
every other character is unchanged. -/
def minusculaChar (c : Char) : Char :=
  if 'A' ≤ c ∧ c ≤ 'Z' then Char.ofNat (c.toNat + 32)
  else if c = 'Á' then 'á'
  else if c = 'É' then 'é'
  else if c = 'Í' then 'í'
  else if c = 'Ó' then 'ó'
  else if c = 'Ú' then 'ú'
  else if c = 'Ñ' then 'ñ'
  else if c = 'Ü' then 'ü'
  else c

/-- Python `s.lower()`: lowercase every character of the string. -/
def lower (s : String) : String :=
  ⟨s.data.map minusculaChar⟩

/-- The first character list stands at the head of the second. -/
def comienzaCon : List Char → List Char → Bool
  | [], _ => true
  | _ :: _, [] => false
  | a :: as, b :: bs => a == b && comienzaCon as bs

/-- The first character list occurs contiguously inside the second. -/
def contieneLista (aguja : List Char) : List Char → Bool
  | [] => aguja.isEmpty
  | b :: bs => comienzaCon aguja (b :: bs) || contieneLista aguja bs

/-- Python substring test `aguja in pajar` on strings. -/
def enCadena (aguja pajar : String) : Bool :=
  contieneLista aguja.data pajar.data

/-- A calendar date, the value of Python `datetime.date(y, m, d)`. -/
structure Fecha where
  anio : Nat
  mes : Nat
  dia : Nat
  deriving DecidableEq

/-- Python date comparison `d1 <= d2`: lexicographic on (year, month, day). -/
def fechaLe (d1 d2 : Fecha) : Bool :=
  d1.anio < d2.anio ||
    (d1.anio == d2.anio &&
      (d1.mes < d2.mes || (d1.mes == d2.mes && d1.dia ≤ d2.dia)))

/-- A timestamp, the value of Python `datetime(y, m, d, hh, mm)`; its
`.date()` method is the `fecha` projection. -/
structure FechaHora where
  fecha : Fecha
  hora : Nat
  minuto : Nat
  deriving DecidableEq

/-- The `Noticia` record of `main.py`: id, timestamp, outlet, title, body
and optional topic. -/
structure Noticia where
  id : String
  fecha_publicacion : FechaHora
  fuente : String
  titulo : String
  contenido : String
  tema : Option String
  deriving DecidableEq

/-- First sample article of `DB_SIMULADA`. -/
def noticiaN001 : Noticia :=
  { id := "N001"
    fecha_publicacion := ⟨⟨2025, 10, 25⟩, 10, 30⟩
    fuente := "El Mercurio"
    titulo := "El avance de la IA revoluciona la industria local"
    contenido := "Expertos debaten sobre el impacto de la Inteligencia Artificial en el mercado laboral."
    tema := some "Tecnología" }

/-- Second sample article of `DB_SIMULADA`. -/
def noticiaN002 : Noticia :=
  { id := "N002"
    fecha_publicacion := ⟨⟨2025, 10, 24⟩, 15, 0⟩
    fuente := "La Nación"
    titulo := "Crisis climática: Sequía afecta a la agricultura del sur"
    contenido := "Los agricultores piden ayuda al gobierno tras meses sin lluvia."
    tema := some "Medio Ambiente" }

/-- Third sample article of `DB_SIMULADA`. -/
def noticiaN003 : Noticia :=
  { id := "N003"
    fecha_publicacion := ⟨⟨2025, 10, 25⟩, 11, 45⟩
    fuente := "El Mercurio"
    titulo := "Resultados electorales del fin de semana"
    contenido := "Análisis detallado de los votos en las principales regiones del país."
    tema := some "Política" }

/-- Fourth sample article of `DB_SIMULADA`. -/
def noticiaN004 : Noticia :=
  { id := "N004"
    fecha_publicacion := ⟨⟨2025, 10, 20⟩, 8, 0⟩
    fuente := "Diario Financiero"
    titulo := "Grandes inversiones en infraestructura tecnológica"
    contenido := "Se anuncia un nuevo centro de datos con tecnología de punta."
    tema := some "Tecnología" }

/-- The in-memory store of `main.py`, in its insertion order. -/
def DB_SIMULADA : List Noticia :=
  [noticiaN001, noticiaN002, noticiaN003, noticiaN004]

/-- The optional query parameters of `listar_noticias_con_filtros`. -/
structure Criterios where
  q : Option String
  medio : Option String
  tema : Option String
  fecha_inicio : Option Fecha
  fecha_fin : Option Fecha

/-- The keyword block of `listar_noticias_con_filtros`: `if q:` is Python
truthiness, so a `None` or empty keyword leaves the list unchanged;
otherwise keep the articles whose lowercased title or body contains the
lowercased keyword. -/
def filtro_q (par : Option String) (resultados : List Noticia) : List Noticia :=
  match par with
  | none => resultados
  | some q =>
      if q = "" then resultados
      else resultados.filter fun n =>
        enCadena (lower q) (lower n.titulo) || enCadena (lower q) (lower n.contenido)

/-- The outlet block: keep the articles whose lowercased `fuente` equals
the lowercased parameter exactly; skipped when `None` or empty. -/
def filtro_medio (par : Option String) (resultados : List Noticia) : List Noticia :=
  match par with
  | none => resultados
  | some medio =>
      if medio = "" then resultados
      else resultados.filter fun n => lower n.fuente == lower medio

/-- The article-side test of the topic block, Python
`n.tema and n.tema.lower() == tema_lower`: a `None` or empty `tema` field
is falsy and never matches. -/
def tema_match (tema_lower : String) : Option String → Bool
  | none => false
  | some t2 => !(t2 == "") && (lower t2 == tema_lower)

/-- The topic block: keep the articles whose truthy `tema` field equals
the lowercased parameter; skipped when the parameter is `None` or empty. -/
def filtro_tema (par : Option String) (resultados : List Noticia) : List Noticia :=
  match par with
  | none => resultados
  | some tema =>
      if tema = "" then resultados
      else resultados.filter fun n => tema_match (lower tema) n.tema

/-- The lower date bound: keep articles whose publication date is on or
after `fecha_inicio`; a supplied date is always truthy in Python. -/
def filtro_fecha_inicio (par : Option Fecha) (resultados : List Noticia) : List Noticia :=
  match par with
  | none => resultados
  | some d => resultados.filter fun n => fechaLe d n.fecha_publicacion.fecha

/-- The upper date bound: keep articles whose publication date is on or
before `fecha_fin`. -/
def filtro_fecha_fin (par : Option Fecha) (resultados : List Noticia) : List Noticia :=
  match par with
  | none => resultados
  | some d => resultados.filter fun n => fechaLe n.fecha_publicacion.fecha d

/-- The body of `listar_noticias_con_filtros` over an explicit store: the
five filter blocks applied to `resultados` in the order of the source
(keyword, outlet, topic, lower date bound, upper date bound). -/
def listar_filtrado (db : List Noticia) (c : Criterios) : List Noticia :=
  filtro_fecha_fin c.fecha_fin
    (filtro_fecha_inicio c.fecha_inicio
      (filtro_tema c.tema
        (filtro_medio c.medio
          (filtro_q c.q db))))

/-- The endpoint `GET /api/v1/noticias`: the filter pipeline run on the
module-level store `DB_SIMULADA`. -/
def listar_noticias_con_filtros (c : Criterios) : List Noticia :=
  listar_filtrado DB_SIMULADA c

/-- The endpoint `GET /api/v1/noticias/{noticia_id}`:
`next((n for n in DB_SIMULADA if n.id == noticia_id), None)`, with the
`None` outcome standing for the 404 `HTTPException`. -/
def obtener_noticia (noticia_id : String) : Option Noticia :=
  DB_SIMULADA.find? fun n => n.id == noticia_id

/-- An article whose `tema` field is present but empty, for exercising the
truthiness test of the topic block. -/
def noticiaTemaVacio : Noticia :=
  { id := "NX"
    fecha_publicacion := ⟨⟨2025, 1, 1⟩, 0, 0⟩
    fuente := "Fuente"
    titulo := "Titulo"
    contenido := "Contenido"
    tema := some "" }

theorem filtro_q_sublist (par : Option String) (l : List Noticia) :
    (filtro_q par l).Sublist l := by
  cases par with
  | none => exact List.Sublist.refl l
  | some q =>
    simp only [filtro_q]
    split
    · exact List.Sublist.refl l
    · exact List.filter_sublist l

theorem filtro_medio_sublist (par : Option String) (l : List Noticia) :
    (filtro_medio par l).Sublist l := by
  cases par with
  | none => exact List.Sublist.refl l
  | some m =>
    simp only [filtro_medio]
    split
    · exact List.Sublist.refl l
    · exact List.filter_sublist l

theorem filtro_tema_sublist (par : Option String) (l : List Noticia) :
    (filtro_tema par l).Sublist l := by
  cases par with
  | none => exact List.Sublist.refl l
  | some t =>
    simp only [filtro_tema]
    split
    · exact List.Sublist.refl l
    · exact List.filter_sublist l

theorem filtro_fecha_inicio_sublist (par : Option Fecha) (l : List Noticia) :
    (filtro_fecha_inicio par l).Sublist l := by
  cases par with
  | none => exact List.Sublist.refl l
  | some d => exact List.filter_sublist l

theorem filtro_fecha_fin_sublist (par : Option Fecha) (l : List Noticia) :
    (filtro_fecha_fin par l).Sublist l := by
  cases par with
  | none => exact List.Sublist.refl l
  | some d => exact List.filter_sublist l

theorem filtro_q_none (l : List Noticia) : filtro_q none l = l := rfl

theorem filtro_medio_none (l : List Noticia) : filtro_medio none l = l := rfl

theorem filtro_tema_none (l : List Noticia) : filtro_tema none l = l := rfl

theorem filtro_fecha_inicio_none (l : List Noticia) : filtro_fecha_inicio none l = l := rfl

theorem filtro_fecha_fin_none (l : List Noticia) : filtro_fecha_fin none l = l := rfl

theorem lower_eq_vacia (s : String) : lower s = "" ↔ s = "" := by
  constructor
  · intro h
    have hdata : (lower s).data = [] := by rw [h]
    have : s.data.map minusculaChar = [] := hdata
    have hs : s.data = [] := List.map_eq_nil_iff.mp this
    cases s
    simp_all
  · intro h
    subst h
    rfl

theorem mem_filtro_q (q : String) (hq : q ≠ "") (l : List Noticia) (n : Noticia) :
    n ∈ filtro_q (some q) l ↔
      n ∈ l ∧ (enCadena (lower q) (lower n.titulo) = true ∨
               enCadena (lower q) (lower n.contenido) = true) := by
  simp [filtro_q, hq, List.mem_filter]

theorem mem_filtro_medio (m : String) (hm : m ≠ "") (l : List Noticia) (n : Noticia) :
    n ∈ filtro_medio (some m) l ↔ n ∈ l ∧ lower n.fuente = lower m := by
  simp [filtro_medio, hm, List.mem_filter]

theorem tema_match_iff (tl : String) (o : Option String) :
    tema_match tl o = true ↔ ∃ t2, o = some t2 ∧ t2 ≠ "" ∧ lower t2 = tl := by
  cases o with
  | none => simp [tema_match]
  | some t2 => simp [tema_match, and_assoc]

theorem mem_filtro_tema (t : String) (ht : t ≠ "") (l : List Noticia) (n : Noticia) :
    n ∈ filtro_tema (some t) l ↔
      n ∈ l ∧ ∃ t2, n.tema = some t2 ∧ lower t2 = lower t := by
  simp only [filtro_tema]
  rw [if_neg ht]
  simp only [List.mem_filter, tema_match_iff]
  constructor
  · rintro ⟨hn, t2, h2, _, hl⟩
    exact ⟨hn, t2, h2, hl⟩
  · rintro ⟨hn, t2, h2, hl⟩
    refine ⟨hn, t2, h2, ?_, hl⟩
    intro hvac
    subst hvac
    have : lower t = "" := hl.symm
    exact ht ((lower_eq_vacia t).mp this)

theorem mem_filtro_fecha_inicio (d : Fecha) (l : List Noticia) (n : Noticia) :
    n ∈ filtro_fecha_inicio (some d) l ↔
      n ∈ l ∧ fechaLe d n.fecha_publicacion.fecha = true := by
  simp [filtro_fecha_inicio, List.mem_filter]

theorem mem_filtro_fecha_fin (d : Fecha) (l : List Noticia) (n : Noticia) :
    n ∈ filtro_fecha_fin (some d) l ↔
      n ∈ l ∧ fechaLe n.fecha_publicacion.fecha d = true := by
  simp [filtro_fecha_fin, List.mem_filter]

theorem any_id_en_filtro (db l1 : List Noticia) (pm : Noticia → Bool)
    (hnodup : (db.map Noticia.id).Nodup) (hsub : ∀ a ∈ l1, a ∈ db) :
    (l1.filter fun a => (db.filter pm).any fun b => b.id == a.id) = l1.filter pm := by
  apply List.filter_congr
  intro a ha
  have hadb : a ∈ db := hsub a ha
  cases hpm : pm a with
  | true =>
    rw [List.any_eq_true]
    exact ⟨a, List.mem_filter.mpr ⟨hadb, hpm⟩, by simp⟩
  | false =>
    rw [List.any_eq_false]
    intro x hx hbeq
    rw [List.mem_filter] at hx
    have hid : x.id = a.id := by simpa using hbeq
    have hxa : x = a := List.inj_on_of_nodup_map hnodup hx.1 hadb hid
    rw [hxa] at hx
    rw [hx.2] at hpm
    exact Bool.noConfusion hpm

/-- Claim C1: for every combination of supplied criteria the search result
is the store's original ordered sequence restricted to the survivors — a
sublist of the input collection — and with no criteria supplied the full
collection is returned unchanged. -/
theorem busqueda_sublista_y_sin_criterios_identidad (c : Criterios) (db : List Noticia) :
    (listar_filtrado db c).Sublist db ∧
      listar_filtrado db ⟨none, none, none, none, none⟩ = db := by
  constructor
  · exact (filtro_fecha_fin_sublist _ _).trans
      ((filtro_fecha_inicio_sublist _ _).trans
        ((filtro_tema_sublist _ _).trans
          ((filtro_medio_sublist _ _).trans (filtro_q_sublist _ _))))
  · rfl

/-- Claim C2 (counterexample): over the sample store, search with keyword
"IA" and no other criteria does not return the one-element sequence
[N001]: the lowercased keyword "ia" also occurs in the bodies of N002
("lluvia") and N004 ("anuncia"). -/
theorem busqueda_IA_no_es_solo_N001 :
    listar_noticias_con_filtros ⟨some "IA", none, none, none, none⟩ ≠ [noticiaN001] := by
  decide

/-- Claim C2 (amended): over the sample store, search with keyword "IA"
and no other criteria returns exactly [N001, N002, N004]. -/
theorem busqueda_IA_resultado :
    listar_noticias_con_filtros ⟨some "IA", none, none, none, none⟩ =
      [noticiaN001, noticiaN002, noticiaN004] := by
  decide

/-- Claim C3: for every supplied non-empty keyword k, an article is in the
result of search with only that keyword iff the lowercased k is a
substring of its lowercased title or of its lowercased body. -/
theorem busqueda_palabra_clave_caracterizacion (k : String) (db : List Noticia) (a : Noticia)
    (hk : k ≠ "") :
    a ∈ listar_filtrado db ⟨some k, none, none, none, none⟩ ↔
      a ∈ db ∧ (enCadena (lower k) (lower a.titulo) = true ∨
                enCadena (lower k) (lower a.contenido) = true) := by
  show a ∈ filtro_q (some k) db ↔ _
  exact mem_filtro_q k hk db a

/-- Witness for claim C3 at keyword "IA" and article N001. -/
theorem busqueda_palabra_clave_caracterizacion_testigo :
    ("IA" : String) ≠ "" ∧
      (noticiaN001 ∈ listar_filtrado DB_SIMULADA ⟨some "IA", none, none, none, none⟩ ↔
        noticiaN001 ∈ DB_SIMULADA ∧
          (enCadena (lower "IA") (lower noticiaN001.titulo) = true ∨
           enCadena (lower "IA") (lower noticiaN001.contenido) = true)) :=
  ⟨by decide, busqueda_palabra_clave_caracterizacion "IA" DB_SIMULADA noticiaN001 (by decide)⟩

/-- Claim C4: for every supplied non-empty source s, an article is in the
result of search with only that source iff its lowercased outlet equals
the lowercased s exactly; and the searches for "EL MERCURIO" and
"el mercurio" return identical sequences. -/
theorem filtro_fuente_exacto_e_insensible (s : String) (db : List Noticia) (a : Noticia)
    (hs : s ≠ "") :
    (a ∈ listar_filtrado db ⟨none, some s, none, none, none⟩ ↔
        a ∈ db ∧ lower a.fuente = lower s) ∧
      listar_noticias_con_filtros ⟨none, some "EL MERCURIO", none, none, none⟩ =
        listar_noticias_con_filtros ⟨none, some "el mercurio", none, none, none⟩ := by
  constructor
  · show a ∈ filtro_medio (some s) db ↔ _
    exact mem_filtro_medio s hs db a
  · decide

/-- Witness for claim C4 at source "El Mercurio" and article N001. -/
theorem filtro_fuente_exacto_e_insensible_testigo :
    ("El Mercurio" : String) ≠ "" ∧
      ((noticiaN001 ∈ listar_filtrado DB_SIMULADA ⟨none, some "El Mercurio", none, none, none⟩ ↔
          noticiaN001 ∈ DB_SIMULADA ∧ lower noticiaN001.fuente = lower "El Mercurio") ∧
        listar_noticias_con_filtros ⟨none, some "EL MERCURIO", none, none, none⟩ =
          listar_noticias_con_filtros ⟨none, some "el mercurio", none, none, none⟩) :=
  ⟨by decide, filtro_fuente_exacto_e_insensible "El Mercurio" DB_SIMULADA noticiaN001 (by decide)⟩

/-- Claim C5: for every supplied non-empty topic t, an article is in the
result of search with only that topic iff its topic is present and, case
folded, equals t; an article with an absent topic is never returned. -/
theorem filtro_tema_caracterizacion (t : String) (db : List Noticia) (a : Noticia)
    (ht : t ≠ "") :
    a ∈ listar_filtrado db ⟨none, none, some t, none, none⟩ ↔
      a ∈ db ∧ ∃ t2, a.tema = some t2 ∧ lower t2 = lower t := by
  show a ∈ filtro_tema (some t) db ↔ _
  exact mem_filtro_tema t ht db a

/-- Witness for claim C5 at topic "Tecnología" and article N001. -/
theorem filtro_tema_caracterizacion_testigo :
    ("Tecnología" : String) ≠ "" ∧
      (noticiaN001 ∈ listar_filtrado DB_SIMULADA ⟨none, none, some "Tecnología", none, none⟩ ↔
        noticiaN001 ∈ DB_SIMULADA ∧
          ∃ t2, noticiaN001.tema = some t2 ∧ lower t2 = lower "Tecnología") :=
  ⟨by decide, filtro_tema_caracterizacion "Tecnología" DB_SIMULADA noticiaN001 (by decide)⟩

/-- Claim C6: an article passes a date-range search iff the date component
of its timestamp is ≥ the supplied lower bound and ≤ the supplied upper
bound, each bound applying only when supplied; both bounds are inclusive
(`fechaLe` is reflexive, so an article dated exactly on a bound passes). -/
theorem filtro_fechas_inclusivo (d1 d2 : Fecha) (db : List Noticia) (a : Noticia) :
    (a ∈ listar_filtrado db ⟨none, none, none, some d1, some d2⟩ ↔
        a ∈ db ∧ fechaLe d1 a.fecha_publicacion.fecha = true ∧
          fechaLe a.fecha_publicacion.fecha d2 = true) ∧
      (a ∈ listar_filtrado db ⟨none, none, none, some d1, none⟩ ↔
        a ∈ db ∧ fechaLe d1 a.fecha_publicacion.fecha = true) ∧
      (a ∈ listar_filtrado db ⟨none, none, none, none, some d2⟩ ↔
        a ∈ db ∧ fechaLe a.fecha_publicacion.fecha d2 = true) ∧
      fechaLe d1 d1 = true := by
  refine ⟨?_, ?_, ?_, ?_⟩
  · show a ∈ filtro_fecha_fin (some d2) (filtro_fecha_inicio (some d1) db) ↔ _
    rw [mem_filtro_fecha_fin, mem_filtro_fecha_inicio]
    tauto
  · show a ∈ filtro_fecha_inicio (some d1) db ↔ _
    exact mem_filtro_fecha_inicio d1 db a
  · show a ∈ filtro_fecha_fin (some d2) db ↔ _
    exact mem_filtro_fecha_fin d2 db a
  · simp [fechaLe]

/-- Claim C7: lookup by id returns the stored article with exactly that id
when one exists, returns the not-found outcome when no article has the id
(in particular for "N999"), and is idempotent. -/
theorem obtener_noticia_correcta (i : String) :
    (∀ a, a ∈ DB_SIMULADA → a.id = i → obtener_noticia i = some a) ∧
      ((∀ a ∈ DB_SIMULADA, a.id ≠ i) → obtener_noticia i = none) ∧
      obtener_noticia i = obtener_noticia i ∧
      obtener_noticia "N999" = none := by
  refine ⟨?_, ?_, rfl, by decide⟩
  · intro a ha hid
    subst hid
    fin_cases ha <;> decide
  · intro h
    rw [obtener_noticia, List.find?_eq_none]
    intro x hx
    simpa using h x hx

/-- Witness for claim C7 at ids "N001" and "N999". -/
theorem obtener_noticia_correcta_testigo :
    obtener_noticia "N001" = some noticiaN001 ∧ obtener_noticia "N999" = none :=
  ⟨(obtener_noticia_correcta "N001").1 noticiaN001 (by decide) rfl,
   (obtener_noticia_correcta "N999").2.2.2⟩

/-- Claim C8: over a store with pairwise distinct ids, searching with a
keyword and a source together returns exactly the keyword-only result
restricted to the articles whose id occurs in the source-only result —
the intersection by id of the two one-filter searches. -/
theorem ley_conjuntiva (k s : String) (db : List Noticia)
    (hnodup : (db.map Noticia.id).Nodup) :
    listar_filtrado db ⟨some k, some s, none, none, none⟩ =
      (listar_filtrado db ⟨some k, none, none, none, none⟩).filter fun a =>
        (listar_filtrado db ⟨none, some s, none, none, none⟩).any fun b => b.id == a.id := by
  show filtro_medio (some s) (filtro_q (some k) db) =
    (filtro_q (some k) db).filter fun a =>
      (filtro_medio (some s) db).any fun b => b.id == a.id
  have hsubq : ∀ a ∈ filtro_q (some k) db, a ∈ db :=
    fun a ha => (filtro_q_sublist (some k) db).subset ha
  by_cases hs : s = ""
  · subst hs
    have hskip : ∀ l : List Noticia, filtro_medio (some "") l = l := by
      intro l
      simp [filtro_medio]
    rw [hskip, hskip]
    have h1 := any_id_en_filtro db (filtro_q (some k) db) (fun _ => true) hnodup hsubq
    simp only [List.filter_true] at h1
    exact h1.symm
  · have hmeq : ∀ l : List Noticia, filtro_medio (some s) l =
        l.filter fun n => lower n.fuente == lower s := by
      intro l
      simp only [filtro_medio]
      rw [if_neg hs]
    rw [hmeq, hmeq]
    exact (any_id_en_filtro db (filtro_q (some k) db) _ hnodup hsubq).symm

/-- Witness for claim C8 at keyword "IA" and source "El Mercurio" over the
sample store. -/
theorem ley_conjuntiva_testigo :
    (DB_SIMULADA.map Noticia.id).Nodup ∧
      listar_filtrado DB_SIMULADA ⟨some "IA", some "El Mercurio", none, none, none⟩ =
        (listar_filtrado DB_SIMULADA ⟨some "IA", none, none, none, none⟩).filter fun a =>
          (listar_filtrado DB_SIMULADA ⟨none, some "El Mercurio", none, none, none⟩).any
            fun b => b.id == a.id :=
  ⟨by decide, ley_conjuntiva "IA" "El Mercurio" DB_SIMULADA (by decide)⟩

/-- Claim C9 (counterexample): an explicitly empty source string is NOT
applied as an exact-match filter — the code tests Python truthiness, so
searching with source "" returns the same sequence as supplying no source
at all, which differs from exact matching `fuente` against "". -/
theorem cadena_vacia_fuente_contraejemplo :
    listar_noticias_con_filtros ⟨none, some "", none, none, none⟩ =
        listar_noticias_con_filtros ⟨none, none, none, none, none⟩ ∧
      listar_noticias_con_filtros ⟨none, some "", none, none, none⟩ ≠
        DB_SIMULADA.filter fun n => lower n.fuente == lower "" :=
  ⟨rfl, by decide⟩

/-- Claim C9 (amended): supplying an explicitly empty string for the
keyword, source or topic parameter is treated exactly like omitting that
filter, so the search returns the collection unfiltered. -/
theorem cadena_vacia_como_omitido (db : List Noticia) :
    listar_filtrado db ⟨some "", none, none, none, none⟩ = db ∧
      listar_filtrado db ⟨none, some "", none, none, none⟩ = db ∧
      listar_filtrado db ⟨none, none, some "", none, none⟩ = db :=
  ⟨rfl, rfl, rfl⟩

/-- Claim C10 (counterexample): when the supplied topic filter is itself
the empty string the filter block is skipped, so an article whose `tema`
field is present but empty IS returned. -/
theorem tema_vacio_contraejemplo :
    noticiaTemaVacio.tema = some "" ∧
      noticiaTemaVacio ∈
        listar_filtrado [noticiaTemaVacio] ⟨none, none, some "", none, none⟩ :=
  ⟨rfl, by decide⟩

/-- Claim C10 (amended): for every supplied NON-empty topic string, an
article whose `tema` field is present but equal to the empty string is
never in the result — the falsy empty topic is treated like an absent
one by the match test. -/
theorem tema_vacio_nunca_coincide (t : String) (db : List Noticia) (a : Noticia)
    (ht : t ≠ "") (ha : a.tema = some "") :
    a ∉ listar_filtrado db ⟨none, none, some t, none, none⟩ := by
  intro hmem
  have hmem2 : a ∈ filtro_tema (some t) db := hmem
  rw [mem_filtro_tema t ht db a] at hmem2
  obtain ⟨-, t2, h2, hl⟩ := hmem2
  rw [ha] at h2
  injection h2 with h2
  subst h2
  have h0 : lower "" = "" := (lower_eq_vacia "").mpr rfl
  rw [h0] at hl
  exact ht ((lower_eq_vacia t).mp hl.symm)

/-- Witness for the amended claim C10 at topic "Tecnología" and the
empty-topic article. -/
theorem tema_vacio_nunca_coincide_testigo :
    ("Tecnología" : String) ≠ "" ∧ noticiaTemaVacio.tema = some "" ∧
      noticiaTemaVacio ∉
        listar_filtrado [noticiaTemaVacio] ⟨none, none, some "Tecnología", none, none⟩ :=
  ⟨by decide, rfl,
    tema_vacio_nunca_coincide "Tecnología" [noticiaTemaVacio] noticiaTemaVacio
      (by decide) rfl⟩
